import Mathlib

/-!
Shallow embedding of `src/vueprom.py` (thebaron/vueprom): a polling engine
that republishes per-device, per-channel energy usage as Prometheus gauges.
Pure fragments of the Python source are translated into executable Lean
definitions; exceptional control flow is made explicit with `Except` and
`Option`. Python floats are modelled by `ℚ` and `str.lower` by
`Char.toLower` (exact on ASCII).
-/

namespace Vueprom

/-! ### LabelSanitizer

Embedding of the label-derivation line of `poll_emporia`:

  channel_label = re.sub(r'_+', '_', re.sub(r'[^a-z0-9_]','_', name.lower(), re.I | re.M))

Note that in `re.sub(pattern, repl, string, count, flags)` the fourth
positional argument is `count`, so the value `re.I | re.M` (= 2 | 8 = 10)
is passed as the replacement count of the inner substitution, not as flags.
-/

def reI : Nat := 2

def reM : Nat := 8

def isSafeChar (c : Char) : Bool :=
  ('a' ≤ c && c ≤ 'z') || ('0' ≤ c && c ≤ '9') || c == '_'

/-- Embedding of the inner `re.sub(r'[^a-z0-9_]', '_', s, count)`: each
character outside `[a-z0-9_]` is one match and is replaced by one
underscore, but only the first `count` matches are replaced (`count = 0`
here means the budget is exhausted, so the rest of the string is kept). -/
def replaceBadChars : Nat → List Char → List Char
  | _, [] => []
  | 0, l => l
  | Nat.succ n, c :: rest =>
    if isSafeChar c then c :: replaceBadChars (Nat.succ n) rest
    else '_' :: replaceBadChars n rest

/-- Embedding of the outer `re.sub(r'_+', '_', s)` (no count limit):
every maximal run of underscores collapses to a single underscore. -/
def collapseU : List Char → List Char
  | [] => []
  | [c] => [c]
  | a :: b :: rest =>
    if a = '_' ∧ b = '_' then collapseU (b :: rest)
    else a :: collapseU (b :: rest)

/-- Embedding of `channel_label = re.sub(r'_+', '_', re.sub(r'[^a-z0-9_]','_', name.lower(), re.I | re.M))`. -/
def sanitize (l : List Char) : List Char :=
  collapseU (replaceBadChars (reI ||| reM) (l.map Char.toLower))

def sanitizeStr (s : String) : String :=
  String.mk (sanitize s.data)

/-- The sanitizer as the specification words it (used to compare against
`sanitize`): after lower-casing, every maximal run of one or more
characters outside `[a-z0-9_]` is replaced by a single underscore, with
no limit on the number of runs and with characters inside the class
(including existing underscores) left untouched. -/
def specReplaceRuns : List Char → List Char
  | [] => []
  | [c] => if isSafeChar c then [c] else ['_']
  | a :: b :: rest =>
    if !isSafeChar a && !isSafeChar b then specReplaceRuns (b :: rest)
    else (if isSafeChar a then a else '_') :: specReplaceRuns (b :: rest)

/-- Lower-case, then replace each maximal out-of-class run with one
underscore: the claimed behaviour of the sanitizer. -/
def claimSanitize (l : List Char) : List Char :=
  specReplaceRuns (l.map Char.toLower)

theorem dropWhile_length_le (p : Char → Bool) (l : List Char) :
    (l.dropWhile p).length ≤ l.length := by
  induction l with
  | nil => simp [List.dropWhile]
  | cons a l ih =>
    rw [List.dropWhile]
    cases p a
    · simp
    · simp only
      exact Nat.le_succ_of_le ih

/-- An independent rendering of run collapsing, written from the words
"every maximal run of underscores becomes a single underscore": emit one
underscore and drop the rest of the run. -/
def specCollapseU : List Char → List Char
  | [] => []
  | c :: rest =>
    if c = '_' then '_' :: specCollapseU (rest.dropWhile (fun x => x = '_'))
    else c :: specCollapseU rest
termination_by l => l.length
decreasing_by
  · simp only [List.length_cons]
    exact Nat.lt_succ_of_le (dropWhile_length_le _ _)
  · simp only [List.length_cons]
    exact Nat.lt_succ_self _

theorem collapseU_head (x : Char) (xs : List Char) :
    (collapseU (x :: xs)).head? = some x := by
  induction xs generalizing x with
  | nil => rfl
  | cons b rest ih =>
    by_cases hx : x = '_' ∧ b = '_'
    · obtain ⟨h1, h2⟩ := hx
      subst h1
      subst h2
      have hstep : collapseU ('_' :: '_' :: rest) = collapseU ('_' :: rest) := by
        simp [collapseU]
      rw [hstep, ih]
    · simp only [collapseU, if_neg hx, List.head?_cons]

theorem collapseU_chain (l : List Char) :
    List.Chain' (fun a b => ¬(a = '_' ∧ b = '_')) (collapseU l) := by
  induction l using collapseU.induct with
  | case1 => simp [collapseU]
  | case2 c => simp [collapseU]
  | case3 a b rest h ih => simpa only [collapseU, if_pos h] using ih
  | case4 a b rest h ih =>
    simp only [collapseU, if_neg h]
    rw [List.chain'_cons']
    refine ⟨?_, ih⟩
    intro y hy
    rw [collapseU_head b rest] at hy
    simp only [Option.mem_def, Option.some_inj] at hy
    subst hy
    exact h

theorem collapseU_eq_spec (l : List Char) : collapseU l = specCollapseU l := by
  induction l using collapseU.induct with
  | case1 => simp [collapseU, specCollapseU]
  | case2 c =>
    by_cases hc : c = '_'
    · subst hc; simp [collapseU, specCollapseU]
    · simp [collapseU, specCollapseU, hc]
  | case3 a b rest h ih =>
    obtain ⟨ha, hb⟩ := h
    subst ha; subst hb
    rw [collapseU, if_pos ⟨rfl, rfl⟩, ih]
    conv_rhs => rw [specCollapseU]
    rw [specCollapseU]
    simp [List.dropWhile]
  | case4 a b rest h ih =>
    rw [collapseU, if_neg h, ih]
    by_cases ha : a = '_'
    · subst ha
      have hb : ¬ b = '_' := fun hbe => h ⟨rfl, hbe⟩
      conv_rhs => rw [specCollapseU]
      simp [List.dropWhile, hb]
    · conv_rhs => rw [specCollapseU]
      simp [ha]

example : sanitizeStr "Main Panel Mains" = "main_panel_mains" := by decide

example : sanitizeStr "Main Panel-7" = "main_panel_7" := by decide

example : sanitize (String.data "a__b") = String.data "a_b" := by decide

example : sanitize (List.replicate 11 '!') = ['_', '!'] := by decide

example : sanitize (List.replicate 21 '!') = '_' :: List.replicate 11 '!' := by decide

/-- Claim C10: for every input string, the sanitized label contains no two
consecutive underscore characters: every underscore run of the intermediate
string, including underscore runs already present in the original input,
is collapsed to a single underscore by the outer substitution. -/
theorem sanitize_no_double_underscore (s : List Char) :
    List.Chain' (fun a b => ¬(a = '_' ∧ b = '_')) (sanitize s) :=
  collapseU_chain _

/-- Claim C4 fails on the code at two concrete inputs. For "a__b" the
spec-described function keeps the underscore run (its characters are inside
[a-z0-9_]) while the code collapses it to "a_b". For eleven characters
outside the class the spec-described function yields a single underscore
while the code, whose inner substitution only replaces the first 10
matches (re.I | re.M = 10 fills the count argument of re.sub), leaves the
eleventh character in place. -/
theorem sanitize_claim_false :
    claimSanitize (String.data "a__b") ≠ sanitize (String.data "a__b")
    ∧ claimSanitize (List.replicate 11 '!') ≠ sanitize (List.replicate 11 '!') := by
  decide

/-- Claim C4 (amended): sanitize(s) lower-cases s, replaces each of the
first 10 characters outside [a-z0-9_] individually with an underscore
(10 = re.I | re.M, which lands in the positional count argument of the
inner re.sub), and then collapses every maximal run of underscores,
including runs already present in the input, to a single underscore; it is
a total function with no error conditions. -/
theorem sanitize_amended_description :
    (∀ l, sanitize l = specCollapseU (replaceBadChars (reI ||| reM) (l.map Char.toLower)))
    ∧ reI ||| reM = 10 :=
  ⟨fun _ => collapseU_eq_spec _, rfl⟩

/-- Claim C5 fails on the code: on 21 characters outside [a-z0-9_], each
application of the sanitizer only replaces 10 of them (re.I | re.M = 10 is
passed in the count slot of the inner re.sub), so applying it twice keeps
shrinking the string and idempotence is violated. -/
theorem sanitize_not_idempotent :
    sanitize (sanitize (List.replicate 21 '!')) ≠ sanitize (List.replicate 21 '!') := by
  decide

/-! ### Data model

`Channel`, `RawDevice` and `UsageReading` mirror the pyemvue objects as
`poll_emporia` consumes them: `channels` may be absent (`None`) on a raw
device, a reading's `usage` may be `None`, and floats are modelled by `ℚ`. -/

structure Channel where
  channel_num : String
  name : Option String
  channel_multiplier : ℚ
deriving DecidableEq

structure RawDevice where
  device_gid : Nat
  device_name : String
  channels : Option (List Channel)
deriving DecidableEq

structure UsageReading where
  channel_num : String
  usage : Option ℚ
deriving DecidableEq

/-- One gauge update:
`USAGE_WATTS.labels(channel_label, u.channel_num, device_name, device.device_gid).set(watts)`. -/
structure MetricWrite where
  channel_name : String
  channel_num : String
  device_name : String
  device_gid : Nat
  watts : ℚ
deriving DecidableEq

/-- Conversion factor `wattsInAKw = 1000.0`. -/
def wattsInAKw : ℚ := 1000

/-- Conversion factor `minutesInAnHour = 60`. -/
def minutesInAnHour : ℚ := 60

/-! ### DeviceAggregator

Embedding of the first loop of `poll_emporia`. The Python dict `devices`
is modelled as an insertion-ordered association list. `device ==
devices[device.device_gid]` is object identity there, which holds exactly
when the current record was just inserted as first for its gid, so the
skip branch is the first-seen case. For a duplicate gid whose stored
record has `channels is None` the stored list is reset to `[]`; otherwise
the incoming list is appended, and `stored.channels + device.channels`
raises a TypeError when the incoming `channels` is `None` (list + None). -/

def lookupGid (m : List (Nat × RawDevice)) (g : Nat) : Option RawDevice :=
  match m.find? (fun p => p.1 == g) with
  | none => none
  | some p => some p.2

def updateGid (m : List (Nat × RawDevice)) (g : Nat) (d : RawDevice) :
    List (Nat × RawDevice) :=
  m.map (fun p => if p.1 = g then (p.1, d) else p)

def aggStep (m : List (Nat × RawDevice)) (d : RawDevice) :
    Except Unit (List (Nat × RawDevice)) :=
  match lookupGid m d.device_gid with
  | none => Except.ok (m ++ [(d.device_gid, d)])
  | some stored =>
    match stored.channels with
    | none => Except.ok (updateGid m d.device_gid { stored with channels := some [] })
    | some cs =>
      match d.channels with
      | none => Except.error ()
      | some cs2 =>
        Except.ok (updateGid m d.device_gid { stored with channels := some (cs ++ cs2) })

def aggregateAux : List (Nat × RawDevice) → List RawDevice →
    Except Unit (List (Nat × RawDevice))
  | m, [] => Except.ok m
  | m, d :: rest =>
    match aggStep m d with
    | Except.error e => Except.error e
    | Except.ok m2 => aggregateAux m2 rest

/-- The device-aggregation loop over the raw `device_list`. -/
def aggregate (l : List RawDevice) : Except Unit (List (Nat × RawDevice)) :=
  aggregateAux [] l

/-! ### ChannelMatcher

Embedding of the per-reading name resolution inside the usage loop:
`next(filter(finder, device.channels))` is the first channel whose
`channel_num` equals the reading's; `StopIteration` (no match) becomes
`none`. On a match the multiplier is the channel's `channel_multiplier`,
and the pre-sanitization name is the channel's `name` when present, else
`"<device_name> Mains"` for the `"1,2,3"` channel, else the default
`f"<device_name>-<channel_num>"`. -/

def resolve (device_name : String) (channels : List Channel) (channel_num : String) :
    Option (String × ℚ) :=
  match channels.find? (fun c => c.channel_num == channel_num) with
  | none => none
  | some channel =>
    match channel.name with
    | some n => some (n, channel.channel_multiplier)
    | none =>
      if channel_num = "1,2,3" then
        some (device_name ++ " Mains", channel.channel_multiplier)
      else
        some (device_name ++ "-" ++ channel_num, channel.channel_multiplier)

/-- Embedding of `u.usage * usage_multiplier` in Python: when `u.usage` is `None` the
multiplication itself raises a TypeError (`None * float`). -/
def pyMulOpt : Option ℚ → ℚ → Except Unit ℚ
  | none, _ => Except.error ()
  | some x, m => Except.ok (x * m)

/-- One iteration of `for u in channels_usage`. A missing channel
(`StopIteration`) is caught and skipped (`Except.ok none`); a `None` usage
raises out of the loop before the `if kwhUsage is not None` guard can see
it, so that guard is vacuous for any value that reaches it. -/
def processReading (device_name : String) (device_gid : Nat)
    (channels : List Channel) (u : UsageReading) :
    Except Unit (Option MetricWrite) :=
  match resolve device_name channels u.channel_num with
  | none => Except.ok none
  | some (name, usage_multiplier) =>
    let channel_label := sanitizeStr name
    match pyMulOpt u.usage usage_multiplier with
    | Except.error e => Except.error e
    | Except.ok kwhUsage =>
      if (some kwhUsage).isSome then
        Except.ok (some
          ⟨channel_label, u.channel_num, device_name, device_gid,
            wattsInAKw * minutesInAnHour * kwhUsage⟩)
      else
        Except.ok none

/-- The usage loop over one device's `channels_usage`: a skipped reading
contributes nothing, an uncaught exception aborts the whole cycle. -/
def processReadings (device_name : String) (device_gid : Nat)
    (channels : List Channel) : List UsageReading → Except Unit (List MetricWrite)
  | [] => Except.ok []
  | u :: rest =>
    match processReading device_name device_gid channels u with
    | Except.error e => Except.error e
    | Except.ok none => processReadings device_name device_gid channels rest
    | Except.ok (some w) =>
      match processReadings device_name device_gid channels rest with
      | Except.error e => Except.error e
      | Except.ok ws => Except.ok (w :: ws)

/-- Per-device body of the second loop. The debug f-string
`len(device.channels)` is evaluated unconditionally, so a device whose
`channels` stayed `None` raises a TypeError before any reading is seen. -/
def processDevice (d : RawDevice) (readings : List UsageReading) :
    Except Unit (List MetricWrite) :=
  match d.channels with
  | none => Except.error ()
  | some cs => processReadings d.device_name d.device_gid cs readings

/-- Embedding of `for device_gid in devices` over the aggregated map, in insertion
order; `usages gid` stands for the list `vue.get_devices_usage(gid, ...)`
returns for that device. -/
def processAll : List (Nat × RawDevice) → (Nat → List UsageReading) →
    Except Unit (List MetricWrite)
  | [], _ => Except.ok []
  | (gid, d) :: rest, usages =>
    match processDevice d (usages gid) with
    | Except.error e => Except.error e
    | Except.ok ws =>
      match processAll rest usages with
      | Except.error e => Except.error e
      | Except.ok ws2 => Except.ok (ws ++ ws2)

/-- One whole poll cycle body (the big `try` block of `poll_emporia`):
aggregate the raw device list, then process every device's readings. Any
uncaught exception anywhere aborts the cycle. -/
def runCycle (device_list : List RawDevice) (usages : Nat → List UsageReading) :
    Except Unit (List MetricWrite) :=
  match aggregate device_list with
  | Except.error e => Except.error e
  | Except.ok devs => processAll devs usages

/-! ### PollScheduler

`poll_emporia(vue, retry_login, poll_interval)` reschedules itself with
`threading.Timer`. Its control flow on one invocation, given the outcome
of the login attempt (only made when `retry_login` is true; the bare
`except Exception` treats every login failure alike) and the outcome of
the cycle body, is a pure function to the next timer registration. The
login-failure branch registers `Timer(poll_interval, ..., retry_login=True,
poll_interval=60)`; the success branch `Timer(poll_interval, ...,
retry_login=False, poll_interval=60)`; the cycle-failure branch
`Timer(5, ..., retry_login=True, poll_interval=60)`. -/

inductive LoginResult where
  | success
  | authError
deriving DecidableEq

structure SchedulerCall where
  retry_login : Bool
  poll_interval : Nat
deriving DecidableEq

inductive Outcome where
  | schedule (delay : Nat) (retry_login : Bool) (next_poll_interval : Nat)
  | exitProcess (code : Int)
deriving DecidableEq

def isExitOutcome : Outcome → Bool
  | Outcome.exitProcess _ => true
  | _ => false

/-- The `try ... except` around the cycle body of `poll_emporia`. -/
def pollBody (call : SchedulerCall) (cycle : Except Unit (List MetricWrite)) : Outcome :=
  match cycle with
  | Except.ok _ => Outcome.schedule call.poll_interval false 60
  | Except.error _ => Outcome.schedule 5 true 60

/-- One invocation of `poll_emporia` as a function of the login outcome and
the cycle outcome. -/
def poll_emporia (call : SchedulerCall) (login : LoginResult)
    (cycle : Except Unit (List MetricWrite)) : Outcome :=
  if call.retry_login then
    match login with
    | LoginResult.authError => Outcome.schedule call.poll_interval true 60
    | LoginResult.success => pollBody call cycle
  else pollBody call cycle

/-- The function `create_app` registers the first poll:
`threading.Timer(1, poll_emporia, kwargs={"vue":vue, "retry_login":True,
"poll_interval":60})`. It performs no login itself (`PyEmVue()` does not
authenticate). -/
def create_app_schedule : Nat × SchedulerCall :=
  (1, { retry_login := true, poll_interval := 60 })

/-- The module-level `try: app = create_app() except: die(-2)`. The exit
path fires only when `create_app` itself raises; login happens later, in
the timer thread, so a login failure never reaches this handler. -/
def startup (create_app_raises : Bool) : Outcome :=
  if create_app_raises then Outcome.exitProcess (-2)
  else Outcome.schedule create_app_schedule.1 true 60

/-! ### Claim theorems: scheduler -/

/-- Claim C2 fails on the code at the first login: the login-failure branch
registers its retry timer with `poll_interval` (60 seconds on every call the
program makes), not with the short 5-second backoff, which belongs to the
mid-cycle failure branch. -/
theorem login_retry_delay_is_interval_not_five :
    poll_emporia { retry_login := true, poll_interval := 60 } LoginResult.authError
        (Except.ok []) = Outcome.schedule 60 true 60
    ∧ poll_emporia { retry_login := true, poll_interval := 60 } LoginResult.authError
        (Except.ok []) ≠ Outcome.schedule 5 true 60 := by
  exact ⟨rfl, by decide⟩

/-- Claim C2 (amended): whenever the login step fails, the scheduler
reschedules with the login-required flag set true and a delay equal to the
invocation's poll interval (60 seconds for every call the program
schedules), so the next scheduled action is Authenticating, not Polling;
the short fixed 5-second backoff belongs to mid-cycle failures instead. -/
theorem login_failure_reschedules_login_after_interval :
    (∀ (interval : Nat) (cycle : Except Unit (List MetricWrite)),
      poll_emporia { retry_login := true, poll_interval := interval }
        LoginResult.authError cycle = Outcome.schedule interval true 60)
    ∧ (∀ call : SchedulerCall, pollBody call (Except.error ()) = Outcome.schedule 5 true 60) :=
  ⟨fun _ _ => rfl, fun _ => rfl⟩

/-- Claim C3 fails on the code: an AuthError on the very first login (the
call registered by `create_app`, with the login flag forced true) does not
exit the process; it schedules a retry of Authenticating after the poll
interval, exactly like any later login failure. -/
theorem first_login_failure_schedules_retry :
    isExitOutcome (poll_emporia create_app_schedule.2 LoginResult.authError
        (Except.ok [])) = false
    ∧ poll_emporia create_app_schedule.2 LoginResult.authError (Except.ok [])
        = Outcome.schedule 60 true 60 :=
  ⟨rfl, rfl⟩

/-- Claim C3 (amended): a login failure at startup is handled like every
other login failure: the scheduler retries Authenticating after the poll
interval with the login flag set, and the process stays alive. The
module-level exit path (status -2) only fires for exceptions raised while
constructing the app, which performs no login. -/
theorem first_login_failure_not_fatal (cycle : Except Unit (List MetricWrite)) :
    poll_emporia create_app_schedule.2 LoginResult.authError cycle
        = Outcome.schedule 60 true 60
    ∧ isExitOutcome (poll_emporia create_app_schedule.2 LoginResult.authError cycle) = false
    ∧ startup false = Outcome.schedule 1 true 60 :=
  ⟨rfl, rfl, rfl⟩

/-- Witness for the amended C3 theorem at a concrete cycle outcome. -/
theorem first_login_failure_not_fatal_witness :
    poll_emporia create_app_schedule.2 LoginResult.authError (Except.ok [])
        = Outcome.schedule 60 true 60
    ∧ isExitOutcome (poll_emporia create_app_schedule.2 LoginResult.authError
        (Except.ok [])) = false
    ∧ startup false = Outcome.schedule 1 true 60 :=
  first_login_failure_not_fatal (Except.ok [])

/-! ### Claim theorems: aggregation -/

/-- Claim C6: the first record seen for a gid is stored as-is; a later
record with the same gid has its channel list appended to the stored one
(here for stored and incoming channel lists that are present, i.e. not
None), all other stored fields untouched; so two records sharing a gid
with channel lists of lengths m and n merge into one record whose channel
list has length m + n and whose other fields are the first record's. -/
theorem aggregate_merges_duplicate_gid (d1 d2 : RawDevice) (l1 l2 : List Channel)
    (hg : d2.device_gid = d1.device_gid)
    (h1 : d1.channels = some l1) (h2 : d2.channels = some l2) :
    aggregate [d1] = Except.ok [(d1.device_gid, d1)]
    ∧ aggregate [d1, d2] =
        Except.ok [(d1.device_gid, { d1 with channels := some (l1 ++ l2) })]
    ∧ (l1 ++ l2).length = l1.length + l2.length := by
  refine ⟨?_, ?_, List.length_append l1 l2⟩
  · simp [aggregate, aggregateAux, aggStep, lookupGid]
  · simp [aggregate, aggregateAux, aggStep, lookupGid, updateGid, hg, h1, h2]

def aggWl1 : List Channel := [⟨"1", none, 1⟩]

def aggWl2 : List Channel := [⟨"2", none, 1⟩, ⟨"3", none, 1⟩]

def aggW1 : RawDevice :=
  { device_gid := 7, device_name := "A", channels := some aggWl1 }

def aggW2 : RawDevice :=
  { device_gid := 7, device_name := "B", channels := some aggWl2 }

/-- Witness for the C6 theorem on two concrete duplicate records with
channel lists of lengths 1 and 2. -/
theorem aggregate_merges_duplicate_gid_witness :
    aggregate [aggW1] = Except.ok [(aggW1.device_gid, aggW1)]
    ∧ aggregate [aggW1, aggW2] =
        Except.ok [(aggW1.device_gid, { aggW1 with channels := some (aggWl1 ++ aggWl2) })]
    ∧ (aggWl1 ++ aggWl2).length = aggWl1.length + aggWl2.length :=
  aggregate_merges_duplicate_gid aggW1 aggW2 aggWl1 aggWl2 rfl rfl rfl

/-- Claim C9: when the stored first-seen record for a gid has channels
None, merging a later duplicate resets the stored channel list to the
empty list and discards the duplicate's channels. -/
theorem aggregate_null_channels_reset (d1 d2 : RawDevice)
    (hg : d2.device_gid = d1.device_gid) (h1 : d1.channels = none) :
    aggregate [d1, d2] =
      Except.ok [(d1.device_gid, { d1 with channels := some [] })] := by
  simp [aggregate, aggregateAux, aggStep, lookupGid, updateGid, hg, h1]

def nullDev1 : RawDevice := { device_gid := 9, device_name := "N", channels := none }

def nullDev2 : RawDevice :=
  { device_gid := 9, device_name := "M", channels := some [⟨"1", some "x", 1⟩] }

/-- Witness for the C9 theorem: the duplicate's one channel is dropped and
the stored list becomes empty. -/
theorem aggregate_null_channels_reset_witness :
    aggregate [nullDev1, nullDev2] =
      Except.ok [(nullDev1.device_gid, { nullDev1 with channels := some [] })] :=
  aggregate_null_channels_reset nullDev1 nullDev2 rfl rfl

/-! ### Claim theorems: channel matching and the usage loop -/

/-- Claim C7: for a reading whose channel number matches some channel
(first match of the linear scan), an explicitly named channel contributes
its name verbatim together with its multiplier; an unnamed channel
numbered "1,2,3" yields the label `device name ++ " Mains"`; any other
unnamed channel yields `device name ++ "-" ++ channel number`. -/
theorem resolve_matched_channel_naming (device_name channel_num : String)
    (channels : List Channel) (c : Channel)
    (hfind : channels.find? (fun ch => ch.channel_num == channel_num) = some c) :
    (c.name.isSome →
      resolve device_name channels channel_num
        = some (c.name.getD "", c.channel_multiplier))
    ∧ (c.name = none → channel_num = "1,2,3" →
      resolve device_name channels channel_num
        = some (device_name ++ " Mains", c.channel_multiplier))
    ∧ (c.name = none → ¬ channel_num = "1,2,3" →
      resolve device_name channels channel_num
        = some (device_name ++ "-" ++ channel_num, c.channel_multiplier)) := by
  refine ⟨?_, ?_, ?_⟩
  · intro hs
    cases hn : c.name with
    | none => rw [hn] at hs; simp at hs
    | some n => simp [resolve, hfind, hn]
  · intro hn h123
    subst h123
    simp [resolve, hfind, hn]
  · intro hn h123
    simp [resolve, hfind, hn, h123]

def mainsChannel : Channel := ⟨"1,2,3", none, 1⟩

/-- Witness for the C7 theorem: the unnamed "1,2,3" channel of device
"Main Panel" resolves to the label "Main Panel Mains". -/
theorem resolve_matched_channel_naming_witness :
    ([mainsChannel].find? (fun ch => ch.channel_num == "1,2,3") = some mainsChannel)
    ∧ (mainsChannel.name = none → "1,2,3" = "1,2,3" →
        resolve "Main Panel" [mainsChannel] "1,2,3"
          = some ("Main Panel" ++ " Mains", mainsChannel.channel_multiplier)) :=
  ⟨rfl,
    (resolve_matched_channel_naming "Main Panel" "1,2,3" [mainsChannel] mainsChannel rfl).2.1⟩

/-- Claim C8: a reading whose channel number matches no channel of the
device is skipped: it produces no metric write, the remaining readings are
processed exactly as if it were absent, and the miss is never fatal to the
cycle. -/
theorem unmatched_reading_skipped (device_name : String) (device_gid : Nat)
    (channels : List Channel) (u : UsageReading) (rest : List UsageReading)
    (h : channels.find? (fun c => c.channel_num == u.channel_num) = none) :
    processReadings device_name device_gid channels (u :: rest)
      = processReadings device_name device_gid channels rest := by
  have hres : resolve device_name channels u.channel_num = none := by
    simp [resolve, h]
  simp [processReadings, processReading, hres]

def missChannel : Channel := ⟨"2", some "Oven", 1⟩

def missReading : UsageReading := ⟨"7", some 1⟩

def matchedReading : UsageReading := ⟨"2", some 1⟩

/-- Witness for the C8 theorem: an unmatched reading ahead of a matched
one leaves the matched one's processing unchanged. -/
theorem unmatched_reading_skipped_witness :
    ([missChannel].find? (fun c => c.channel_num == missReading.channel_num) = none)
    ∧ processReadings "Home" 5 [missChannel] [missReading, matchedReading]
        = processReadings "Home" 5 [missChannel] [matchedReading] :=
  ⟨rfl, unmatched_reading_skipped "Home" 5 [missChannel] missReading [matchedReading] rfl⟩

/-! ### Claim theorem: null usage -/

def fridgeChannel : Channel := ⟨"1", some "Fridge", 1⟩

def homeDevice : RawDevice :=
  { device_gid := 100, device_name := "Home", channels := some [fridgeChannel] }

def nullReading : UsageReading := ⟨"1", none⟩

def goodReading : UsageReading := ⟨"1", some 1⟩

/-- Claim C1 fails on the code. A reading whose usage is None reaches
`kwhUsage = u.usage * usage_multiplier` before the `if kwhUsage is not
None` guard, and `None * float` raises a TypeError: the whole cycle
aborts (no later reading or device of the cycle is processed) and the
outer handler reschedules a 5-second retry with a forced re-login, while
the same cycle without the null reading completes and emits the metric.
The dead null guard in the source shows the claim describes the intended
behaviour, so the code, not the claim, is wrong. -/
theorem null_usage_aborts_cycle :
    runCycle [homeDevice] (fun _ => [nullReading, goodReading]) = Except.error ()
    ∧ runCycle [homeDevice] (fun _ => [goodReading])
        = Except.ok [⟨"fridge", "1", "Home", 100, wattsInAKw * minutesInAnHour * (1 * 1)⟩]
    ∧ wattsInAKw * minutesInAnHour * ((1 : ℚ) * 1) = 60000
    ∧ poll_emporia { retry_login := false, poll_interval := 60 } LoginResult.success
        (runCycle [homeDevice] (fun _ => [nullReading, goodReading]))
        = Outcome.schedule 5 true 60 :=
  ⟨rfl, rfl, by norm_num [wattsInAKw, minutesInAnHour], rfl⟩

end Vueprom
